import Mathlib

/-!
# Verification of the `verify-phone` SMS dispatch core

A shallow embedding, in Lean 4, of the core logic of the `verify-phone`
repository (`src/verify-phone.ts` and `src/sns.js`):

* the basic phone-number normalizer and E.164 validator
  (`formatPhoneNumber`, `isValidPhoneNumber`),
* the two VoIP classification strategies (`isPhoneNumberVoip`,
  `isPhoneNumberVoipLibPhoneNumber`),
* the AWS Signature-Version-4 signing procedure (`SNSClient.sign`),
  parameterised over the Web-Crypto primitives (SHA-256 / HMAC-SHA256 and
  UTF-8 encoding are platform collaborators, modelled as abstract functions),
* the response extractor (`SNSClient.parseXMLResponse`) and the transport
  wrapper (`SNSClient.makeRequest`), with the network outcome supplied as
  an explicit value,
* the orchestrator (`verifyPhone`), instrumented with a Boolean recording
  whether the transport stage (SNS client construction, signing and the
  publish call) was reached.

Strings are Lean `String`s; JavaScript string operations are modelled on
`String.toList` (JS compares and sorts by UTF-16 code units; for the ASCII
data involved here this agrees with Lean's `Char` order).
-/

/-! ## Phone normalizer / validator (`formatPhoneNumber`, `isValidPhoneNumber`) -/

/-- `phone.replace(/\D/g, '')`: keep only the decimal digits of a string. -/
def digitsOf (s : String) : String :=
  String.mk (s.toList.filter Char.isDigit)

/-- JS `s.startsWith(c)` for a single-character prefix. -/
def headIs (s : String) (c : Char) : Bool :=
  s.toList.head? == some c

/-- `formatPhoneNumber` from `src/verify-phone.ts` (lines 189–199): strip
non-digits; 10 digits → prefix `+1`; 11 digits starting with `1` → prefix
`+`; otherwise return the input if it starts with `+`, else `+` plus the
stripped digits. -/
def formatPhoneNumber (phone : String) : String :=
  let cleaned := digitsOf phone
  if cleaned.length == 10 then "+1" ++ cleaned
  else if cleaned.length == 11 && headIs cleaned '1' then "+" ++ cleaned
  else if headIs phone '+' then phone
  else "+" ++ cleaned

/-- The regex `^\+[1-9]\d{1,14}$` from `isValidPhoneNumber`, on the
character list of the input: a `+`, one digit `1`–`9`, then 1 to 14 more
digits, and nothing else. -/
def phoneRegexMatchL (l : List Char) : Bool :=
  match l with
  | c0 :: d :: rest =>
      (c0 == '+') && (('1' ≤ d && d ≤ '9') && rest.all Char.isDigit
        && (1 ≤ rest.length && rest.length ≤ 14))
  | _ => false

/-- The regex `^\+[1-9]\d{1,14}$` from `isValidPhoneNumber`. -/
def phoneRegexMatch (s : String) : Bool :=
  phoneRegexMatchL s.toList

/-- `isValidPhoneNumber` from `src/verify-phone.ts` (lines 207–220), basic
(non-libphonenumber) path: regex test plus a 7–16 length bound. -/
def isValidPhoneNumberBasic (s : String) : Bool :=
  phoneRegexMatch s && (7 ≤ s.length && s.length ≤ 16)

theorem digitsOf_mk (l : List Char) : digitsOf (String.mk l) = String.mk (l.filter Char.isDigit) := rfl

theorem string_mk_append (a b : List Char) : String.mk a ++ String.mk b = String.mk (a ++ b) := rfl

theorem digitsOf_append (s t : String) : digitsOf (s ++ t) = digitsOf s ++ digitsOf t := by
  cases s with
  | mk a =>
    cases t with
    | mk b =>
      simp only [string_mk_append, digitsOf_mk]
      simp [digitsOf, List.filter_append]

theorem digitsOf_idem (s : String) : digitsOf (digitsOf s) = digitsOf s := by
  cases s with
  | mk l =>
    simp [digitsOf, List.filter_filter]

theorem digitsOf_all_digits (s : String) : (digitsOf s).toList.all Char.isDigit = true := by
  cases s with
  | mk l =>
    simp only [digitsOf]
    simp [List.all_eq_true]

/-- When every character of `s` is a digit, stripping non-digits is the
identity. -/
theorem digitsOf_of_all_digits (s : String) (h : s.toList.all Char.isDigit = true) :
    digitsOf s = s := by
  cases s with
  | mk l =>
    simp only [digitsOf]
    congr 1
    exact List.filter_eq_self.mpr (by simpa [List.all_eq_true] using h)

theorem string_length_mk (l : List Char) : (String.mk l).length = l.length := rfl

/-- `formatPhoneNumber` is idempotent on every string. -/
theorem formatPhoneNumber_idem (s : String) :
    formatPhoneNumber (formatPhoneNumber s) = formatPhoneNumber s := by
  have hdd := digitsOf_idem s
  by_cases h10 : (digitsOf s).length == 10
  · -- branch `+1 ++ cleaned`
    have hfs : formatPhoneNumber s = "+1" ++ digitsOf s := by
      simp [formatPhoneNumber, h10]
    rw [hfs]
    have hclean : digitsOf ("+1" ++ digitsOf s) = "1" ++ digitsOf s := by
      rw [digitsOf_append]
      rw [digitsOf_of_all_digits (digitsOf s) (digitsOf_all_digits s)]
      rfl
    have h10' : (digitsOf s).length = 10 := by simpa using h10
    have hlen : ("1" ++ digitsOf s).length = 11 := by
      cases hs : digitsOf s with
      | mk l =>
        have hl : l.length = 10 := by simpa [hs, string_length_mk] using h10'
        show (String.mk ('1' :: l)).length = 11
        simp [string_length_mk, hl]
    have hhead : headIs ("1" ++ digitsOf s) '1' = true := by
      cases hs : digitsOf s with
      | mk l =>
        show headIs (String.mk ('1' :: l)) '1' = true
        simp [headIs]
    simp only [formatPhoneNumber, hclean, hlen, hhead]
    norm_num
    rfl
  · by_cases h11 : ((digitsOf s).length == 11 && headIs (digitsOf s) '1') = true
    · -- branch `+ ++ cleaned`, 11 digits starting with 1
      have hfs : formatPhoneNumber s = "+" ++ digitsOf s := by
        simp only [formatPhoneNumber]
        rw [if_neg (by simpa using h10), if_pos h11]
      rw [hfs]
      have hclean : digitsOf ("+" ++ digitsOf s) = digitsOf s := by
        rw [digitsOf_append, digitsOf_idem]
        rfl
      simp only [formatPhoneNumber, hclean]
      rw [if_neg (by simpa using h10), if_pos h11]
    · by_cases hplus : headIs s '+'
      · -- branch: return the input unchanged
        have hfs : formatPhoneNumber s = s := by
          simp only [formatPhoneNumber]
          rw [if_neg (by simpa using h10), if_neg (by simpa using h11), if_pos hplus]
        rw [hfs, hfs]
      · -- branch `+ ++ cleaned`, fallback
        have hfs : formatPhoneNumber s = "+" ++ digitsOf s := by
          simp only [formatPhoneNumber]
          rw [if_neg (by simpa using h10), if_neg (by simpa using h11),
            if_neg (by simpa using hplus)]
        rw [hfs]
        have hclean : digitsOf ("+" ++ digitsOf s) = digitsOf s := by
          rw [digitsOf_append, digitsOf_idem]
          rfl
        have hhead : headIs ("+" ++ digitsOf s) '+' = true := by
          cases hs : digitsOf s with
          | mk l =>
            show headIs (String.mk ('+' :: l)) '+' = true
            simp [headIs]
        simp only [formatPhoneNumber, hclean]
        rw [if_neg (by simpa using h10), if_neg (by simpa using h11), if_pos hhead]

theorem plus_mk_cons (l : List Char) : "+" ++ String.mk l = String.mk ('+' :: l) := rfl

/-- On an input matching the E.164 regex, stripping non-digits drops exactly
the leading `+`. -/
theorem digitsOf_of_regex (d : Char) (rest : List Char)
    (hd : ('1' ≤ d && d ≤ '9') = true) (hdig : rest.all Char.isDigit = true) :
    digitsOf (String.mk ('+' :: d :: rest)) = String.mk (d :: rest) := by
  have hplus : ('+').isDigit = false := by decide
  have hddig : d.isDigit = true := by
    simp only [Bool.and_eq_true, decide_eq_true_eq] at hd
    obtain ⟨h1, h9⟩ := hd
    rw [Char.le_def] at h1 h9
    simp only [Char.isDigit, Bool.and_eq_true, decide_eq_true_eq]
    exact ⟨UInt32.le_trans (by decide) h1, UInt32.le_trans h9 (by decide)⟩
  simp only [digitsOf]
  congr 1
  show List.filter Char.isDigit ('+' :: d :: rest) = d :: rest
  rw [List.filter_cons_of_neg (by simp [hplus]), List.filter_cons_of_pos hddig]
  simp only [List.all_eq_true] at hdig
  rw [List.filter_eq_self.mpr hdig]

/-- `formatPhoneNumber` returns unchanged any input matching the validator
whose digit count is not exactly 10. -/
theorem formatPhoneNumber_fixed_of_valid (s : String)
    (hv : isValidPhoneNumberBasic s = true) (h10 : (digitsOf s).length ≠ 10) :
    formatPhoneNumber s = s := by
  cases s with
  | mk l =>
    cases l with
    | nil => simp [isValidPhoneNumberBasic, phoneRegexMatch, phoneRegexMatchL] at hv
    | cons c0 t =>
      cases t with
      | nil => simp [isValidPhoneNumberBasic, phoneRegexMatch, phoneRegexMatchL] at hv
      | cons d rest =>
        have hm : phoneRegexMatchL (c0 :: d :: rest) = true := by
          simp only [isValidPhoneNumberBasic, phoneRegexMatch, Bool.and_eq_true] at hv
          exact hv.1
        simp only [phoneRegexMatchL, Bool.and_eq_true, beq_iff_eq] at hm
        obtain ⟨hc0, ⟨hd, hdig⟩, _hlen⟩ := hm
        subst hc0
        have hclean : digitsOf (String.mk ('+' :: d :: rest)) = String.mk (d :: rest) :=
      digitsOf_of_regex d rest (by simp [hd]) hdig
        by_cases h11 :
            ((String.mk (d :: rest)).length == 11 && headIs (String.mk (d :: rest)) '1') = true
        · simp only [formatPhoneNumber, hclean]
          rw [if_neg (by rw [hclean] at h10; simpa using h10), if_pos h11]
          exact plus_mk_cons (d :: rest)
        · have hhead : headIs (String.mk ('+' :: d :: rest)) '+' = true := by
            simp [headIs]
          simp only [formatPhoneNumber, hclean]
          rw [if_neg (by rw [hclean] at h10; simpa using h10), if_neg (by simpa using h11),
            if_pos hhead]

/-- C7, counterexample: `"+2025550173"` is already in E.164 form (it passes
the code's own validator), yet the basic normalizer rewrites it — its ten
digits trigger the `+1` branch. -/
theorem c7_counterexample :
    isValidPhoneNumberBasic "+2025550173" = true ∧
    formatPhoneNumber "+2025550173" ≠ "+2025550173" := by
  constructor
  · decide
  · decide

/-- C7 (amended): the basic normalize strategy is idempotent on every
string, and it returns unchanged every string already in E.164 form except
those with exactly 10 digits (which are rewritten with a `+1` country
prefix). -/
theorem c7_normalize_idempotent_and_e164_fixed :
    (∀ s : String, formatPhoneNumber (formatPhoneNumber s) = formatPhoneNumber s) ∧
    (∀ s : String, isValidPhoneNumberBasic s = true → (digitsOf s).length ≠ 10 →
      formatPhoneNumber s = s) :=
  ⟨formatPhoneNumber_idem, formatPhoneNumber_fixed_of_valid⟩

/-- C7, witness: the amended theorem applied at `"+15551234567"` and at a
concrete idempotence instance. -/
theorem c7_witness :
    formatPhoneNumber (formatPhoneNumber "555-123-4567") = formatPhoneNumber "555-123-4567" ∧
    (isValidPhoneNumberBasic "+15551234567" = true ∧ (digitsOf "+15551234567").length ≠ 10 ∧
      formatPhoneNumber "+15551234567" = "+15551234567") :=
  ⟨c7_normalize_idempotent_and_e164_fixed.1 "555-123-4567",
   by decide, by decide,
   c7_normalize_idempotent_and_e164_fixed.2 "+15551234567" (by decide) (by decide)⟩

/-! ## VoIP classifier: local-heuristic strategy
(`isPhoneNumberVoipLibPhoneNumber`, `src/verify-phone.ts` lines 431–551)

`parsePhoneNumber` and `getNumberType` come from the external
`libphonenumber-js` collaborator; their results are supplied as explicit
values.  A parse outcome is `.error ()` when the parser threw, `.ok none`
when it returned a null-ish value, and `.ok (some p)` when it returned a
parsed number object. -/

/-- Result of `getNumberType` from the external metadata provider. -/
inductive NumberTypeR
  | VOIP | PREMIUM_RATE | TOLL_FREE | SHARED_COST
  | MOBILE | FIXED_LINE | FIXED_LINE_OR_MOBILE | OTHER
deriving DecidableEq

/-- The fields of a `libphonenumber-js` parsed number that the code reads. -/
structure ParsedPhone where
  country : Option String
  nationalNumber : String
  valid : Bool
  nonGeographic : Bool
  e164 : String
deriving DecidableEq

/-- Outcome of a call to the external `parsePhoneNumber`. -/
def ParseOutcome := Except Unit (Option ParsedPhone)

/-- The `voipAreaCodes` list from the source. -/
def voipAreaCodes : List String :=
  ["800", "888", "877", "866", "855", "844", "833",
   "900", "976",
   "700",
   "500", "521", "522", "523", "524", "525", "526", "527", "528", "529",
   "600", "601", "602", "603", "604", "605", "606", "607", "608", "609"]

/-- `/(\d)\1{2,}/.test(n)`: a run of 3+ identical consecutive digits. -/
def hasTripleRepeat : List Char → Bool
  | [] => false
  | a :: rest =>
    (match rest with
     | b :: c :: _ => a.isDigit && a == b && b == c
     | _ => false) || hasTripleRepeat rest

/-- One step of the source's ascending-digit regex: the alternation
`0(?=1)|1(?=2)|…|8(?=9)` consumes `a` (a digit `0`–`8`) and requires the
next character `b` to be the next digit. -/
def ascStep (a b : Char) : Bool :=
  ('0' ≤ a && a ≤ '8') && (b.toNat == a.toNat + 1)

/-- `/(?:0(?=1)|1(?=2)|…|8(?=9)){3,}/.test(n)`: three consecutive
repetitions of the alternation, i.e. four consecutive ascending digits. -/
def hasAscendingRun : List Char → Bool
  | [] => false
  | a :: rest =>
    (match rest with
     | b :: c :: d :: _ => ascStep a b && ascStep b c && ascStep c d
     | _ => false) || hasAscendingRun rest

/-- The `voipEndings` list from the source. -/
def voipEndings : List String :=
  ["0000", "1111", "2222", "3333", "4444", "5555", "6666", "7777", "8888", "9999"]

/-- The pattern-based heuristics (rules on the national number) evaluated,
in the source's order, when type detection did not settle the verdict. -/
def patternRules (n : String) : Bool :=
  hasTripleRepeat n.toList
  || hasAscendingRun n.toList
  || voipEndings.any (fun e => e.toList.isSuffixOf n.toList)
  || (decide (n.toList.dedup.length ≤ 3) && decide (7 ≤ n.length))

/-- The early-return ladder on `getNumberType`'s result (`some true` /
`some false` = the code returns there; `none` = fall through to the
pattern rules, which also covers a throwing oracle). -/
def typeVerdict : Option NumberTypeR → Option Bool
  | some .VOIP => some true
  | some .PREMIUM_RATE => some true
  | some .TOLL_FREE => some true
  | some .SHARED_COST => some true
  | some .MOBILE => some false
  | some .FIXED_LINE => some false
  | some .FIXED_LINE_OR_MOBILE => none
  | some .OTHER => none
  | none => none

/-- `isPhoneNumberVoipLibPhoneNumber` from `src/verify-phone.ts`
(lines 431–551): unparsable or invalid numbers are not VoIP; then the
US reserved-prefix rule, the non-geographic rule, the (full-metadata-only)
number-type ladder, and finally the pattern rules. -/
def isPhoneNumberVoipLibPhoneNumber (po : ParseOutcome) (metadataType : String)
    (oracle : Option NumberTypeR) : Bool :=
  match po with
  | .error _ => false
  | .ok none => false
  | .ok (some p) =>
    if p.valid = false then false
    else if (p.country == some "US") && voipAreaCodes.contains (p.nationalNumber.take 3) then true
    else if p.nonGeographic then true
    else
      match (if metadataType == "full" then typeVerdict oracle else none) with
      | some b => b
      | none => patternRules p.nationalNumber

/-- The parse result for `+18005551234` (US, national `8005551234`). -/
def parsedTollFree : ParsedPhone :=
  { country := some "US", nationalNumber := "8005551234", valid := true,
    nonGeographic := false, e164 := "+18005551234" }

/-- The parse result for `+12065551234` (US, national `2065551234`,
a geographic Seattle number). -/
def parsedSeattle : ParsedPhone :=
  { country := some "US", nationalNumber := "2065551234", valid := true,
    nonGeographic := false, e164 := "+12065551234" }

/-- C4, counterexample: with minimal metadata the classifier returns
`true` — not `false` as claimed — on national number `"2065551234"`: the
repeated-digit rule matches its `555` run. -/
theorem c4_counterexample :
    isPhoneNumberVoipLibPhoneNumber (.ok (some parsedSeattle)) "minimal" none = true := by
  decide

/-- C4 (amended): with minimal metadata the classifier returns `true` for
national number `"8005551234"` (reserved toll-free prefix rule) and also
`true` for `"2065551234"` (the run of three identical consecutive digits
`555` triggers the repeated-digit rule). -/
theorem c4_heuristic_verdicts :
    isPhoneNumberVoipLibPhoneNumber (.ok (some parsedTollFree)) "minimal" none = true ∧
    isPhoneNumberVoipLibPhoneNumber (.ok (some parsedSeattle)) "minimal" none = true := by
  constructor
  · decide
  · decide

/-! ## VoIP classifier: external-lookup strategy
(`isPhoneNumberVoip`, `src/verify-phone.ts` lines 394–420)

The network call is the external collaborator; its outcome is supplied as
an explicit `LookupOutcome` value. -/

/-- `carrier` object of the lookup response; each field may be absent. -/
structure Carrier where
  name : Option String
  type : Option String
deriving DecidableEq

/-- `portability` object of the lookup response. -/
structure Portability where
  line_type : Option String
deriving DecidableEq

/-- The lookup-response fields the code reads. -/
structure PhoneData where
  carrier : Option Carrier
  portability : Option Portability
deriving DecidableEq

/-- Outcome of the phone-lookup `fetch`. -/
inductive LookupOutcome
  | fetchError                      -- `fetch` rejected, or reading/parsing the body threw
  | httpError (status : Nat)        -- `response.ok` was false
  | success (data : Option PhoneData)  -- parsed JSON body (`none` = null-ish)
deriving DecidableEq

/-- JS `s.toLowerCase()` (ASCII case mapping suffices here). -/
def jsToLower (s : String) : String :=
  String.mk (s.toList.map Char.toLower)

/-- `sub` occurs as a contiguous run somewhere in the list. -/
def listIncludes (sub : List Char) : List Char → Bool
  | [] => sub.isPrefixOf []
  | c :: rest => sub.isPrefixOf (c :: rest) || listIncludes sub rest

/-- JS `s.includes(sub)`. -/
def strIncludes (s sub : String) : Bool :=
  listIncludes sub.toList s.toList

/-- Accessing a property of a possibly-undefined value: absent → throw. -/
def getField {α : Type} : Option α → Except Unit α
  | some a => .ok a
  | none => .error ()

/-- JS `||` on two possibly-throwing Boolean computations. -/
def orElseExc (a b : Except Unit Bool) : Except Unit Bool :=
  match a with
  | .ok true => .ok true
  | .ok false => b
  | .error e => .error e

/-- The verdict expression
`carrier.name.toLowerCase().includes("bandwidth") ||
 carrier.type.toLowerCase() === "voip" ||
 portability.line_type.toLowerCase() === "mobile"`,
with JS short-circuiting and field-access throws made explicit. -/
def lookupVerdict (d : PhoneData) (c : Carrier) : Except Unit Bool :=
  orElseExc
    (do let n ← getField c.name; pure (strIncludes (jsToLower n) "bandwidth"))
    (orElseExc
      (do let t ← getField c.type; pure (jsToLower t == "voip"))
      (do let p ← getField d.portability
          let lt ← getField p.line_type
          pure (jsToLower lt == "mobile")))

/-- `isPhoneNumberVoip` from `src/verify-phone.ts` (lines 394–420): the
whole body is wrapped in `try`/`catch` returning `false`, a non-ok status
returns `false`, a falsy body or missing `carrier` returns `false`, and a
throwing verdict expression is caught to `false`. -/
def isPhoneNumberVoip (o : LookupOutcome) : Bool :=
  match o with
  | .fetchError => false
  | .httpError _ => false
  | .success none => false
  | .success (some d) =>
    match d.carrier with
    | none => false
    | some c =>
      match lookupVerdict d c with
      | .ok b => b
      | .error _ => false

/-- C5: the external-lookup strategy fails open — on a network error, a
non-success status, a malformed or null body, a missing `carrier`, or a
verdict expression that hits a missing field, it returns `false` (and, as
a total function of the outcome, it never throws). -/
theorem c5_lookup_fails_open (o : LookupOutcome) :
    (o = .fetchError ∨ (∃ st, o = .httpError st) ∨ o = .success none ∨
     (∃ d, o = .success (some d) ∧ d.carrier = none) ∨
     (∃ d c, o = .success (some d) ∧ d.carrier = some c ∧ lookupVerdict d c = .error ())) →
    isPhoneNumberVoip o = false := by
  rintro (rfl | ⟨st, rfl⟩ | rfl | ⟨d, rfl, hc⟩ | ⟨d, c, rfl, hc, hv⟩)
  · rfl
  · rfl
  · rfl
  · simp [isPhoneNumberVoip, hc]
  · simp [isPhoneNumberVoip, hc, hv]

/-- C5, witness: the fail-open theorem applied to a response whose carrier
object is present but whose fields needed for the verdict are missing. -/
theorem c5_witness :
    isPhoneNumberVoip
      (.success (some { carrier := some { name := none, type := none },
                        portability := none })) = false :=
  c5_lookup_fails_open _
    (Or.inr (Or.inr (Or.inr (Or.inr ⟨_, _, rfl, rfl, rfl⟩))))

/-! ## AWS Signature Version 4 (`SNSClient.sign`, `src/verify-phone.ts`
lines 245–335; identically `src/sns.js` lines 33–130)

The Web-Crypto primitives (UTF-8 encoding, SHA-256, HMAC-SHA256) are
platform collaborators, modelled as an abstract `CryptoPrims` record over
byte lists.  `new Date()` is ambient state read at the top of `sign`; the
resulting compact timestamp `amzDate` is an explicit argument here, as in
the spec's `SigningContext`.  Header maps are association lists in JS
insertion order; JS `Object.keys(..).sort()` compares UTF-16 code units,
which for the ASCII header names involved agrees with Lean's `String`
order. -/

/-- Bytes are `Nat`s below 256 (the contents of a `Uint8Array`). -/
structure CryptoPrims where
  utf8 : String → List Nat
  sha256 : List Nat → List Nat
  hmac : List Nat → List Nat → List Nat

/-- One lowercase hex digit, as produced by JS `Number.toString(16)`. -/
def hexDigitChar (n : Nat) : Char :=
  if n < 10 then Char.ofNat ('0'.toNat + n) else Char.ofNat ('a'.toNat + (n - 10))

/-- JS `b.toString(16).padStart(2, '0')` for a byte `b < 256`. -/
def byteToHex (b : Nat) : String :=
  String.mk [hexDigitChar (b / 16 % 16), hexDigitChar (b % 16)]

/-- `arrayBufferToHex` from the source (lines 239–243). -/
def arrayBufferToHex (bs : List Nat) : String :=
  String.join (bs.map byteToHex)

/-- `headers[k] = v` on a JS object: overwrite in place if the key exists,
else append (insertion order). -/
def setHeader (hs : List (String × String)) (k v : String) : List (String × String) :=
  if hs.any (fun p => p.1 == k) then hs.map (fun p => if p.1 == k then (k, v) else p)
  else hs ++ [(k, v)]

/-- `headers[k]` (first binding of the key). -/
def headerValue (hs : List (String × String)) (k : String) : String :=
  match hs.find? (fun p => p.1 == k) with
  | some p => p.2
  | none => ""

/-- JS default string comparison (lexicographic on UTF-16 code units),
strict part, on character lists. -/
def jsStrLtL : List Char → List Char → Bool
  | [], [] => false
  | [], _ :: _ => true
  | _ :: _, [] => false
  | a :: as, b :: bs =>
    if a.toNat < b.toNat then true
    else if b.toNat < a.toNat then false
    else jsStrLtL as bs

/-- `a` sorts no later than `b` under JS `Array.prototype.sort()`'s
default comparator. -/
def jsStrLe (a b : String) : Bool :=
  !(jsStrLtL b.toList a.toList)

/-- `jsStrLe` as a decidable relation, for `List.insertionSort`. -/
@[reducible] def keyLeP : String → String → Prop := fun a b => jsStrLe a b = true

instance : DecidableRel keyLeP :=
  fun a b => inferInstanceAs (Decidable (jsStrLe a b = true))

/-- The same ordering on header pairs, comparing the (original) names. -/
@[reducible] def pairKeyLeP : (String × String) → (String × String) → Prop :=
  fun p q => jsStrLe p.1 q.1 = true

instance : DecidableRel pairKeyLeP :=
  fun p q => inferInstanceAs (Decidable (jsStrLe p.1 q.1 = true))

/-- `Object.keys(headers).sort()` (JS sort is stable; keys are unique). -/
def sortedKeys (hs : List (String × String)) : List String :=
  List.insertionSort keyLeP (hs.map Prod.fst)

/-- JS `url.split('?')`: split the character list at every `?`,
keeping empty segments. -/
def splitOnQn : List Char → List (List Char)
  | [] => [[]]
  | c :: rest =>
    if c == '?' then [] :: splitOnQn rest
    else
      match splitOnQn rest with
      | h :: t => (c :: h) :: t
      | [] => [[c]]

/-- `url.split('?')[1] || ''`. -/
def queryOf (url : String) : String :=
  match (splitOnQn url.toList).get? 1 with
  | some l => String.mk l
  | none => ""

/-- Everything `SNSClient.sign` computes, exposed for the theorems; the
method's return value is the `headersOut` field. -/
structure SignParts where
  payloadHash : String
  headersPrepared : List (String × String)
  canonicalHeadersStr : String
  signedHeaderList : String
  canonicalRequest : String
  credentialScope : String
  stringToSign : String
  signature : String
  headersOut : List (String × String)

/-- `SNSClient.sign` (lines 245–335), step by step.  `region` is the
client's region, `amzDate` the compact timestamp derived from the clock. -/
def signParts (P : CryptoPrims) (accessKeyId secretAccessKey region amzDate method url : String)
    (headers0 : List (String × String)) (payload : String) : SignParts :=
  let dateStamp := amzDate.take 8
  let canonicalUri := "/"
  let canonicalQuerystring := queryOf url
  let payloadHash := arrayBufferToHex (P.sha256 (P.utf8 payload))
  let headers :=
    setHeader (setHeader (setHeader headers0 "host" ("sns." ++ region ++ ".amazonaws.com"))
      "x-amz-date" amzDate) "x-amz-content-sha256" payloadHash
  let sortedHeaders :=
    String.intercalate "\n" ((sortedKeys headers).map (fun k => jsToLower k ++ ":" ++ headerValue headers k))
  let signedHeaders := String.intercalate ";" ((sortedKeys headers).map jsToLower)
  let canonicalRequest :=
    String.intercalate "\n"
      [method, canonicalUri, canonicalQuerystring, sortedHeaders, "", signedHeaders, payloadHash]
  let algorithm := "AWS4-HMAC-SHA256"
  let credentialScope := dateStamp ++ "/" ++ region ++ "/sns/aws4_request"
  let canonicalRequestHash := arrayBufferToHex (P.sha256 (P.utf8 canonicalRequest))
  let stringToSign := String.intercalate "\n" [algorithm, amzDate, credentialScope, canonicalRequestHash]
  let kDate := P.hmac (P.utf8 ("AWS4" ++ secretAccessKey)) (P.utf8 dateStamp)
  let kRegion := P.hmac kDate (P.utf8 region)
  let kService := P.hmac kRegion (P.utf8 "sns")
  let kSigning := P.hmac kService (P.utf8 "aws4_request")
  let signature := arrayBufferToHex (P.hmac kSigning (P.utf8 stringToSign))
  let authorization :=
    algorithm ++ " Credential=" ++ accessKeyId ++ "/" ++ credentialScope
      ++ ", SignedHeaders=" ++ signedHeaders ++ ", Signature=" ++ signature
  { payloadHash := payloadHash
    headersPrepared := headers
    canonicalHeadersStr := sortedHeaders
    signedHeaderList := signedHeaders
    canonicalRequest := canonicalRequest
    credentialScope := credentialScope
    stringToSign := stringToSign
    signature := signature
    headersOut := setHeader headers "authorization" authorization }

/-- `SNSClient.sign`'s return value: the mutated header map. -/
def sign (P : CryptoPrims) (accessKeyId secretAccessKey region amzDate method url : String)
    (headers0 : List (String × String)) (payload : String) : List (String × String) :=
  (signParts P accessKeyId secretAccessKey region amzDate method url headers0 payload).headersOut


/-! ### Header-map lemmas -/

theorem find?_map_overwrite (k v : String) (hs : List (String × String))
    (h : hs.any (fun p => p.1 == k) = true) :
    (hs.map (fun p => if p.1 == k then (k, v) else p)).find? (fun p => p.1 == k)
      = some (k, v) := by
  induction hs with
  | nil => simp at h
  | cons p t ih =>
    by_cases hp : (p.1 == k) = true
    · simp only [List.map_cons, if_pos hp]
      exact List.find?_cons_of_pos _ (by simp)
    · rw [List.any_cons, Bool.or_eq_true] at h
      have h' : t.any (fun p => p.1 == k) = true := h.resolve_left hp
      simp only [List.map_cons, if_neg hp]
      rw [List.find?_cons_of_neg _ (by simpa using hp)]
      exact ih h'

theorem find?_append_absent (k v : String) (hs : List (String × String))
    (h : hs.any (fun p => p.1 == k) = false) :
    ((hs ++ [(k, v)]).find? (fun p => p.1 == k)) = some (k, v) := by
  induction hs with
  | nil => simp
  | cons p t ih =>
    rw [List.any_cons, Bool.or_eq_false_iff] at h
    rw [List.cons_append, List.find?_cons_of_neg _ (by rw [h.1]; simp)]
    exact ih h.2

/-- Writing a header then reading it back gives the written value. -/
theorem headerValue_setHeader (hs : List (String × String)) (k v : String) :
    headerValue (setHeader hs k v) k = v := by
  unfold setHeader headerValue
  by_cases h : hs.any (fun p => p.1 == k) = true
  · rw [if_pos h, find?_map_overwrite k v hs h]
  · rw [if_neg h, find?_append_absent k v hs (Bool.eq_false_iff.mpr h)]

/-- Projecting the names out of a pair-sorted header list equals sorting
the names directly (the comparator only looks at names). -/
theorem map_fst_orderedInsert (p : String × String) (l : List (String × String)) :
    (List.orderedInsert pairKeyLeP p l).map Prod.fst
      = List.orderedInsert keyLeP p.1 (l.map Prod.fst) := by
  induction l with
  | nil => rfl
  | cons q t ih =>
    show (if pairKeyLeP p q then p :: q :: t
          else q :: List.orderedInsert pairKeyLeP p t).map Prod.fst
        = if keyLeP p.1 q.1 then p.1 :: q.1 :: t.map Prod.fst
          else q.1 :: List.orderedInsert keyLeP p.1 (t.map Prod.fst)
    by_cases h : pairKeyLeP p q
    · rw [if_pos h, if_pos h]
      rfl
    · rw [if_neg h, if_neg h]
      simp only [List.map_cons]
      rw [ih]

theorem map_fst_insertionSort (l : List (String × String)) :
    (List.insertionSort pairKeyLeP l).map Prod.fst
      = List.insertionSort keyLeP (l.map Prod.fst) := by
  induction l with
  | nil => rfl
  | cons p t ih =>
    rw [List.insertionSort, List.map_cons, List.insertionSort, map_fst_orderedInsert, ih]

/-- With pairwise-distinct names (a JS object cannot hold two bindings of
one key), looking a member pair's name up finds exactly that pair. -/
theorem find?_eq_of_nodup_keys (hs : List (String × String))
    (h : (hs.map Prod.fst).Nodup) (p : String × String) (hp : p ∈ hs) :
    hs.find? (fun q => q.1 == p.1) = some p := by
  induction hs with
  | nil => cases hp
  | cons a t ih =>
    rw [List.map_cons, List.nodup_cons] at h
    rcases List.mem_cons.mp hp with rfl | hpt
    · exact List.find?_cons_of_pos _ (by simp)
    · have hmem : p.1 ∈ t.map Prod.fst := List.mem_map_of_mem Prod.fst hpt
      have hane : ¬((fun q => q.1 == p.1) a = true) := by
        simp only [beq_iff_eq]
        intro he
        exact h.1 (by rw [he]; exact hmem)
      rw [@List.find?_cons_of_neg _ (fun q => q.1 == p.1) a t hane]
      exact ih h.2 hpt

/-- Under distinct names, the code's canonical-header lines (sort the
names, then lower-case and look each value up) coincide with sorting the
header pairs by original name and rendering each pair. -/
theorem canonicalHeaderLines_eq (hs : List (String × String))
    (h : (hs.map Prod.fst).Nodup) :
    (sortedKeys hs).map (fun k => jsToLower k ++ ":" ++ headerValue hs k)
      = (List.insertionSort pairKeyLeP hs).map (fun p => jsToLower p.1 ++ ":" ++ p.2) := by
  rw [sortedKeys, ← map_fst_insertionSort, List.map_map]
  apply List.map_congr_left
  intro p hpmem
  have hp : p ∈ hs := ((List.perm_insertionSort pairKeyLeP hs).mem_iff).mp hpmem
  simp only [Function.comp]
  unfold headerValue
  rw [find?_eq_of_nodup_keys hs h p hp]

/-- The code's signed-header list equals the pair-sorted rendering
unconditionally. -/
theorem signedHeaderNames_eq (hs : List (String × String)) :
    (sortedKeys hs).map jsToLower
      = (List.insertionSort pairKeyLeP hs).map (fun p => jsToLower p.1) := by
  rw [sortedKeys, ← map_fst_insertionSort, List.map_map]
  rfl

/-! ### The signing claims -/

/-- Modelled from the spec (the reading claim C1 asserts): canonical
headers = header names lower-cased FIRST, then sorted lexicographically,
rendered as `name:value` lines. -/
def specCanonicalHeaders (hs : List (String × String)) : String :=
  String.intercalate "\n"
    ((List.insertionSort pairKeyLeP (hs.map (fun p => (jsToLower p.1, p.2)))).map
      (fun p => p.1 ++ ":" ++ p.2))

/-- Modelled from the spec: signed-header list = the lower-cased names,
sorted, joined with `;`. -/
def specSignedHeaderList (hs : List (String × String)) : String :=
  String.intercalate ";" (List.insertionSort keyLeP (hs.map (fun p => jsToLower p.1)))

/-- Modelled from the spec: canonical request
`METHOD\nURI\nQUERY\nCANONICAL_HEADERS\n\nSIGNED_HEADERS\nPAYLOAD_HASH`
with the headers rendered lower-case-then-sort. -/
def specCanonicalRequest (method uri query : String) (hs : List (String × String))
    (payloadHash : String) : String :=
  String.intercalate "\n"
    [method, uri, query, specCanonicalHeaders hs, "", specSignedHeaderList hs, payloadHash]

/-- The canonical-header rendering the code actually performs: header
pairs sorted by their ORIGINAL names, the names then lower-cased. -/
def amendedCanonicalHeaders (hs : List (String × String)) : String :=
  String.intercalate "\n"
    ((List.insertionSort pairKeyLeP hs).map (fun p => jsToLower p.1 ++ ":" ++ p.2))

/-- The signed-header list the code actually produces: names sorted in
original form, then lower-cased, joined with `;`. -/
def amendedSignedHeaderList (hs : List (String × String)) : String :=
  String.intercalate ";" ((List.insertionSort pairKeyLeP hs).map (fun p => jsToLower p.1))

/-- The canonical request with the sort-then-lower-case header rendering. -/
def amendedCanonicalRequest (method uri query : String) (hs : List (String × String))
    (payloadHash : String) : String :=
  String.intercalate "\n"
    [method, uri, query, amendedCanonicalHeaders hs, "", amendedSignedHeaderList hs, payloadHash]

/-- Degenerate concrete crypto primitives, for closed evaluations (the
header-ordering facts do not depend on the hash values). -/
def trivPrims : CryptoPrims :=
  { utf8 := fun _ => [], sha256 := fun _ => [], hmac := fun _ _ => [] }

/-- C1, counterexample: for the mixed-case header map `{B: 1, a: 2}` the
canonical request the code builds differs from the spec's
lower-case-then-sort formula — the code sorts the original names first
(`B` before `a` by code units) and lower-cases afterwards. -/
theorem c1_counterexample :
    (signParts trivPrims "AKID" "SECRET" "us-east-1" "20260101T000000Z" "GET"
        "https://sns.us-east-1.amazonaws.com/?Action=Publish"
        [("B", "1"), ("a", "2")] "").canonicalRequest
      ≠ specCanonicalRequest "GET" "/"
          (queryOf "https://sns.us-east-1.amazonaws.com/?Action=Publish")
          ((signParts trivPrims "AKID" "SECRET" "us-east-1" "20260101T000000Z" "GET"
              "https://sns.us-east-1.amazonaws.com/?Action=Publish"
              [("B", "1"), ("a", "2")] "").headersPrepared)
          ((signParts trivPrims "AKID" "SECRET" "us-east-1" "20260101T000000Z" "GET"
              "https://sns.us-east-1.amazonaws.com/?Action=Publish"
              [("B", "1"), ("a", "2")] "").payloadHash) := by
  decide

/-- C1 (amended): for every method, URL, header map with pairwise-distinct
names, payload and signing context, `sign` builds the canonical request
exactly as `METHOD\nURI\nQUERY\nCANONICAL_HEADERS\n\nSIGNED_HEADERS\n`
`PAYLOAD_HASH`, where the canonical headers are the (injected-header-
extended) map sorted lexicographically by ORIGINAL name and then rendered
with lower-cased names, and the signed-header list is those names in the
same order, lower-cased, joined with `;`. -/
theorem c1_canonical_request_amended (P : CryptoPrims)
    (accessKeyId secretAccessKey region amzDate method url payload : String)
    (headers0 : List (String × String))
    (hnd : (((signParts P accessKeyId secretAccessKey region amzDate method url headers0
        payload).headersPrepared).map Prod.fst).Nodup) :
    (signParts P accessKeyId secretAccessKey region amzDate method url headers0
        payload).canonicalRequest
      = amendedCanonicalRequest method "/" (queryOf url)
          ((signParts P accessKeyId secretAccessKey region amzDate method url headers0
              payload).headersPrepared)
          ((signParts P accessKeyId secretAccessKey region amzDate method url headers0
              payload).payloadHash) := by
  have h1 : (signParts P accessKeyId secretAccessKey region amzDate method url headers0
      payload).canonicalRequest
      = String.intercalate "\n"
          [method, "/", queryOf url,
           String.intercalate "\n"
             ((sortedKeys ((signParts P accessKeyId secretAccessKey region amzDate method url
                 headers0 payload).headersPrepared)).map
               (fun k => jsToLower k ++ ":"
                 ++ headerValue ((signParts P accessKeyId secretAccessKey region amzDate method
                     url headers0 payload).headersPrepared) k)),
           "",
           String.intercalate ";"
             ((sortedKeys ((signParts P accessKeyId secretAccessKey region amzDate method url
                 headers0 payload).headersPrepared)).map jsToLower),
           (signParts P accessKeyId secretAccessKey region amzDate method url headers0
               payload).payloadHash] := rfl
  rw [h1, amendedCanonicalRequest, amendedCanonicalHeaders, amendedSignedHeaderList,
    canonicalHeaderLines_eq _ hnd, signedHeaderNames_eq]

/-- C1, witness: the amended theorem at the orchestrator's actual header
map (whose prepared names are pairwise distinct). -/
theorem c1_witness :
    (((signParts trivPrims "AKID" "SECRET" "us-east-1" "20260101T000000Z" "GET"
        "https://sns.us-east-1.amazonaws.com/?Action=Publish"
        [("Content-Type", "application/x-www-form-urlencoded; charset=utf-8")]
        "").headersPrepared).map Prod.fst).Nodup ∧
    (signParts trivPrims "AKID" "SECRET" "us-east-1" "20260101T000000Z" "GET"
        "https://sns.us-east-1.amazonaws.com/?Action=Publish"
        [("Content-Type", "application/x-www-form-urlencoded; charset=utf-8")]
        "").canonicalRequest
      = amendedCanonicalRequest "GET" "/"
          (queryOf "https://sns.us-east-1.amazonaws.com/?Action=Publish")
          ((signParts trivPrims "AKID" "SECRET" "us-east-1" "20260101T000000Z" "GET"
              "https://sns.us-east-1.amazonaws.com/?Action=Publish"
              [("Content-Type", "application/x-www-form-urlencoded; charset=utf-8")]
              "").headersPrepared)
          ((signParts trivPrims "AKID" "SECRET" "us-east-1" "20260101T000000Z" "GET"
              "https://sns.us-east-1.amazonaws.com/?Action=Publish"
              [("Content-Type", "application/x-www-form-urlencoded; charset=utf-8")]
              "").payloadHash) :=
  ⟨by decide,
   c1_canonical_request_amended trivPrims "AKID" "SECRET" "us-east-1" "20260101T000000Z"
     "GET" "https://sns.us-east-1.amazonaws.com/?Action=Publish"
     "" [("Content-Type", "application/x-www-form-urlencoded; charset=utf-8")] (by decide)⟩

/-- C2: the request signature is `hex(HMAC(kSigning, stringToSign))` for
the four-stage key cascade `kDate = HMAC("AWS4"+secret, dateStamp)`,
`kRegion = HMAC(kDate, region)`, `kService = HMAC(kRegion, "sns")`,
`kSigning = HMAC(kService, "aws4_request")`, and the `authorization`
header reads `AWS4-HMAC-SHA256 Credential=<accessKeyId>/<dateStamp>/`
`<region>/sns/aws4_request, SignedHeaders=<signedHeaderList>,`
` Signature=<signature>`. -/
theorem c2_signature_cascade_and_authorization (P : CryptoPrims)
    (accessKeyId secretAccessKey region amzDate method url payload : String)
    (headers0 : List (String × String)) :
    (signParts P accessKeyId secretAccessKey region amzDate method url headers0
        payload).signature
      = arrayBufferToHex (P.hmac
          (P.hmac (P.hmac (P.hmac (P.hmac (P.utf8 ("AWS4" ++ secretAccessKey))
            (P.utf8 (amzDate.take 8))) (P.utf8 region)) (P.utf8 "sns")) (P.utf8 "aws4_request"))
          (P.utf8 (signParts P accessKeyId secretAccessKey region amzDate method url headers0
              payload).stringToSign))
    ∧ headerValue (signParts P accessKeyId secretAccessKey region amzDate method url headers0
          payload).headersOut "authorization"
      = "AWS4-HMAC-SHA256 Credential=" ++ accessKeyId ++ "/" ++ amzDate.take 8 ++ "/" ++ region
          ++ "/sns/aws4_request, SignedHeaders="
          ++ (signParts P accessKeyId secretAccessKey region amzDate method url headers0
              payload).signedHeaderList
          ++ ", Signature="
          ++ (signParts P accessKeyId secretAccessKey region amzDate method url headers0
              payload).signature := by
  refine ⟨rfl, ?_⟩
  rw [show (signParts P accessKeyId secretAccessKey region amzDate method url headers0
        payload).headersOut
      = setHeader (signParts P accessKeyId secretAccessKey region amzDate method url headers0
            payload).headersPrepared "authorization"
          ("AWS4-HMAC-SHA256" ++ " Credential=" ++ accessKeyId ++ "/"
            ++ (amzDate.take 8 ++ "/" ++ region ++ "/sns/aws4_request")
            ++ ", SignedHeaders="
            ++ (signParts P accessKeyId secretAccessKey region amzDate method url headers0
                payload).signedHeaderList
            ++ ", Signature="
            ++ (signParts P accessKeyId secretAccessKey region amzDate method url headers0
                payload).signature) from rfl]
  rw [headerValue_setHeader]
  apply String.ext
  simp [String.data_append]

/-- C3: with the crypto primitives fixed, two runs of `sign` on
componentwise-equal timestamps, credentials, methods, URLs, header maps
and payloads produce identical outputs (signature, signed headers and
all) — the computation depends on no state beyond those inputs. -/
theorem c3_sign_deterministic (P : CryptoPrims)
    (a₁ s₁ r₁ t₁ m₁ u₁ p₁ a₂ s₂ r₂ t₂ m₂ u₂ p₂ : String)
    (h₁ h₂ : List (String × String))
    (hea : a₁ = a₂) (hes : s₁ = s₂) (her : r₁ = r₂) (het : t₁ = t₂)
    (hem : m₁ = m₂) (heu : u₁ = u₂) (heh : h₁ = h₂) (hep : p₁ = p₂) :
    signParts P a₁ s₁ r₁ t₁ m₁ u₁ h₁ p₁ = signParts P a₂ s₂ r₂ t₂ m₂ u₂ h₂ p₂ := by
  subst hea hes her het hem heu heh hep
  rfl

/-- C3, witness: the determinism theorem at a concrete input. -/
theorem c3_witness :
    signParts trivPrims "AK" "SK" "us-east-1" "20260101T000000Z" "GET" "u?q" [] ""
      = signParts trivPrims "AK" "SK" "us-east-1" "20260101T000000Z" "GET" "u?q" [] "" :=
  c3_sign_deterministic trivPrims "AK" "SK" "us-east-1" "20260101T000000Z" "GET" "u?q" ""
    "AK" "SK" "us-east-1" "20260101T000000Z" "GET" "u?q" "" [] []
    rfl rfl rfl rfl rfl rfl rfl rfl

/-! ## Response extractor (`SNSClient.parseXMLResponse`,
`src/verify-phone.ts` lines 370–384) and transport wrapper
(`SNSClient.makeRequest`, lines 337–368) -/

/-- One regex match attempt of `/<Tag>([^<]+)<\/Tag>/` at each position:
if the opening tag starts here, capture the maximal nonempty run of
non-`<` characters and require the closing tag right after; otherwise
(or on failure) retry from the next position. -/
def scanTag (openT closeT : List Char) : List Char → Option (List Char)
  | [] => none
  | c :: rest =>
    match (if openT.isPrefixOf (c :: rest) then
            let after := (c :: rest).drop openT.length
            let cap := after.takeWhile (fun ch => !(ch == '<'))
            if !cap.isEmpty && closeT.isPrefixOf (after.drop cap.length) then some cap
            else none
          else none) with
    | some cap => some cap
    | none => scanTag openT closeT rest

/-- `xmlText.match(/<Tag>([^<]+)<\/Tag>/)`: the first capture, if any. -/
def matchTag (tag : String) (s : String) : Option String :=
  (scanTag ("<" ++ tag ++ ">").toList ("</" ++ tag ++ ">").toList s.toList).map String.mk

/-- What `parseXMLResponse` returns on the non-throwing paths. -/
inductive XmlParsed
  | messageId (id : String)
  | raw (body : String)
deriving DecidableEq

/-- `parseXMLResponse`: a body with both an error code and an error
message throws `Code: Message`; else a message-id body returns the id;
else the raw body is returned. -/
def parseXMLResponse (xml : String) : Except String XmlParsed :=
  let mid := matchTag "MessageId" xml
  let ecode := matchTag "Code" xml
  let emsg := matchTag "Message" xml
  match ecode, emsg with
  | some code, some msg => .error (code ++ ": " ++ msg)
  | _, _ =>
    match mid with
    | some i => .ok (.messageId i)
    | none => .ok (.raw xml)

/-- Outcome of the publish `fetch` (request building and signing precede
the fetch inside `makeRequest`; the network's reply is the external
input). -/
inductive FetchOutcome
  | networkError (msg : String)             -- `fetch` or `text()` rejected
  | response (ok : Bool) (status : Nat) (body : String)
deriving DecidableEq

/-- `makeRequest` (lines 337–368): a rejection, a non-ok status, and a
throwing `parseXMLResponse` are all caught and re-thrown with the
`SNS Request failed: ` prefix. -/
def makeRequest (f : FetchOutcome) : Except String XmlParsed :=
  match f with
  | .networkError m => .error ("SNS Request failed: " ++ m)
  | .response ok status body =>
    if !ok then
      .error ("SNS Request failed: " ++ ("SNS API Error: " ++ toString status ++ " - " ++ body))
    else
      match parseXMLResponse body with
      | .error e => .error ("SNS Request failed: " ++ e)
      | .ok r => .ok r

/-- C8: the extractor raises `Code: Message` whenever both error fields
match; otherwise it returns a matched message id; otherwise it returns
the raw body without raising. -/
theorem c8_response_extractor (body : String) :
    (∀ code msg, matchTag "Code" body = some code → matchTag "Message" body = some msg →
      parseXMLResponse body = .error (code ++ ": " ++ msg)) ∧
    (∀ i, (matchTag "Code" body = none ∨ matchTag "Message" body = none) →
      matchTag "MessageId" body = some i →
      parseXMLResponse body = .ok (.messageId i)) ∧
    ((matchTag "Code" body = none ∨ matchTag "Message" body = none) →
      matchTag "MessageId" body = none →
      parseXMLResponse body = .ok (.raw body)) := by
  refine ⟨?_, ?_, ?_⟩
  · intro code msg hc hm
    simp [parseXMLResponse, hc, hm]
  · intro i hne hm
    rcases hne with h | h <;> simp [parseXMLResponse, h, hm]
  · intro hne hm
    rcases hne with h | h <;> simp [parseXMLResponse, h, hm]

/-- C8, witness: the extractor theorem at the three example bodies. -/
theorem c8_witness :
    parseXMLResponse "<MessageId>abc123</MessageId>" = .ok (.messageId "abc123") ∧
    parseXMLResponse "<Code>Throttled</Code><Message>rate exceeded</Message>"
      = .error ("Throttled" ++ ": " ++ "rate exceeded") ∧
    parseXMLResponse "<PublishResponse></PublishResponse>"
      = .ok (.raw "<PublishResponse></PublishResponse>") :=
  ⟨(c8_response_extractor "<MessageId>abc123</MessageId>").2.1 "abc123"
      (Or.inl (by decide)) (by decide),
   (c8_response_extractor "<Code>Throttled</Code><Message>rate exceeded</Message>").1
      "Throttled" "rate exceeded" (by decide) (by decide),
   (c8_response_extractor "<PublishResponse></PublishResponse>").2.2
      (Or.inl (by decide)) (by decide)⟩

/-! ## Orchestrator (`verifyPhone`, `src/verify-phone.ts` lines 74–163)

All external effects take their outcomes from an explicit `World`:
the three `parsePhoneNumber` call sites, the `getNumberType` oracle, the
phone-lookup fetch and the publish fetch.  The returned pair's second
component records whether the transport stage — SNS-client construction,
request signing and the publish call — was reached.  Stack traces are not
modelled: the `details` field carries `none` where the source stores
`error.stack`. -/

/-- The code-format regex `^[a-zA-Z0-9]{4,}$` (line 97). -/
def codeFormatOk (c : String) : Bool :=
  (4 ≤ c.length) && c.toList.all Char.isAlphanum

/-- `formatPhoneNumberLibPhoneNumber` (lines 170–182): the parsed
number's E.164 form when parsing succeeded and the number is valid;
otherwise (null result, invalid number, or thrown parse) the basic
formatter. -/
def formatPhoneNumberLibPhoneNumber (phone : String) (po : ParseOutcome) : String :=
  match po with
  | .ok (some p) => if p.valid then p.e164 else formatPhoneNumber phone
  | .ok none => formatPhoneNumber phone
  | .error _ => formatPhoneNumber phone

/-- `isValidPhoneNumber` (lines 207–220) with the libphonenumber branch:
a thrown parse falls back to the regex validation. -/
def isValidPhoneNumberM (phone : String) (useLib : Bool) (po : ParseOutcome) : Bool :=
  if useLib then
    match po with
    | .ok (some p) => p.valid
    | .ok none => false
    | .error _ => isValidPhoneNumberBasic phone
  else isValidPhoneNumberBasic phone

/-- JS `String.prototype.replace` with a string pattern: replace the
first occurrence only. -/
def replaceFirstL (pat rep : List Char) : List Char → List Char
  | [] => if pat.isPrefixOf [] then rep else []
  | c :: rest =>
    if pat.isPrefixOf (c :: rest) then rep ++ (c :: rest).drop pat.length
    else c :: replaceFirstL pat rep rest

/-- `s.replace(pat, rep)` for a string `pat`. -/
def replaceFirst (s pat rep : String) : String :=
  String.mk (replaceFirstL pat.toList rep.toList s.toList)

/-- The process environment variables the orchestrator reads. -/
structure Env where
  AWS_ACCESS_KEY_ID : Option String
  AWS_SECRET_ACCESS_KEY : Option String
  AWS_REGION : Option String
deriving DecidableEq

/-- The options record of `verifyPhone`, with the source's defaults
(`none` = the property is absent). -/
structure VerifyOptions where
  phoneNumber : Option String := none
  code : Option String := none
  accessKeyId : Option String := none
  secretAccessKey : Option String := none
  awsRegion : Option String := none
  blockVoip : Bool := false
  voipDetectionMethod : String := "api"
  useLibPhoneNumber : Bool := false
  metadataType : String := "minimal"
  senderId : String := "Verify"
  smsType : String := "Transactional"
  messageTemplate : String := "Your verification code is: \x7bcode\x7d."
deriving DecidableEq

/-- Outcomes of every external call one `verifyPhone` run can make. -/
structure World where
  parseRaw : ParseOutcome           -- `parsePhoneNumber(phoneNumber)` in the lib formatter
  parseForValidation : ParseOutcome -- `parsePhoneNumber(formattedPhone)` in the validator
  parseFormatted : ParseOutcome     -- `parsePhoneNumber(formattedPhone)` in the heuristic classifier
  oracle : Option NumberTypeR       -- `getNumberType` result (`none` = threw)
  lookup : LookupOutcome            -- the phone-lookup fetch
  publishFetch : FetchOutcome       -- the publish fetch

/-- The result record `verifyPhone` returns. -/
structure DispatchResult where
  success : Bool
  message : Option String := none
  messageId : Option String := none
  code : Option String := none
  phoneNumber : Option String := none
  expiresIn : Option Nat := none
  error : Option String := none
  details : Option String := none
  isVoip : Option Bool := none
deriving DecidableEq

/-- The `catch` arm of `verifyPhone` (lines 156–162), for a thrown
message. -/
def mkFailure (msg : String) : DispatchResult :=
  { success := false, error := some msg, details := none }

/-- The VoIP verdict the orchestrator consults (lines 112–114). -/
def classifierVerdict (opts : VerifyOptions) (w : World) : Bool :=
  if opts.voipDetectionMethod == "libphonenumber" then
    isPhoneNumberVoipLibPhoneNumber w.parseFormatted opts.metadataType w.oracle
  else isPhoneNumberVoip w.lookup

/-- `verifyPhone` (lines 74–163).  Note the destructuring defaults pull
missing credentials from the environment, and nothing afterwards checks
them — they flow straight into the SNS client. -/
def verifyPhone (opts : VerifyOptions) (env : Env) (w : World) : DispatchResult × Bool :=
  let _accessKeyId := opts.accessKeyId.orElse (fun _ => env.AWS_ACCESS_KEY_ID)
  let _secretAccessKey := opts.secretAccessKey.orElse (fun _ => env.AWS_SECRET_ACCESS_KEY)
  let awsRegion := opts.awsRegion.orElse (fun _ => env.AWS_REGION)
  match opts.code with
  | none => (mkFailure "Verification code is required", false)
  | some c =>
    if c == "" then (mkFailure "Verification code is required", false)
    else if !(codeFormatOk c) then
      (mkFailure "Code must be alphanumeric and at least 4 characters", false)
    else
      match opts.phoneNumber with
      | none =>
        -- `formatPhoneNumber(undefined)` throws a TypeError on `.replace`
        (mkFailure "Cannot read properties of undefined (reading 'replace')", false)
      | some rawPhone =>
        let formattedPhone :=
          if opts.useLibPhoneNumber then formatPhoneNumberLibPhoneNumber rawPhone w.parseRaw
          else formatPhoneNumber rawPhone
        if !(isValidPhoneNumberM formattedPhone opts.useLibPhoneNumber w.parseForValidation) then
          (mkFailure "Invalid phone number format. Please use E.164 format (e.g., +1234567890)",
           false)
        else if opts.blockVoip && classifierVerdict opts w then
          ({ success := false,
             error := some "VoIP numbers are not allowed",
             details := some "This phone number appears to be a VoIP number, which is not supported for verification",
             isVoip := some true }, false)
        else
          -- transport stage: SNS client construction (with whatever
          -- credentials were found), message build, signing, publish
          let _region := match awsRegion with
            | some r => if r == "" then "us-east-1" else r
            | none => "us-east-1"
          let _message := replaceFirst opts.messageTemplate "\x7bcode\x7d" c
          match makeRequest w.publishFetch with
          | .error e => (mkFailure e, true)
          | .ok (.messageId i) =>
            ({ success := true, message := some "Verification code sent successfully",
               messageId := some i, code := some c, phoneNumber := some formattedPhone,
               expiresIn := some 600 }, true)
          | .ok (.raw _) =>
            ({ success := true, message := some "Verification code sent successfully",
               messageId := none, code := some c, phoneNumber := some formattedPhone,
               expiresIn := some 600 }, true)

/-! ### Orchestrator claims -/

theorem append_ne_empty_left (s t : String) (h : s.data ≠ []) : s ++ t ≠ "" := by
  intro he
  have hd : (s ++ t).data = [] := by rw [he]
  rw [String.data_append] at hd
  exact h (List.append_eq_nil.mp hd).1

/-- Every error `makeRequest` surfaces carries the nonempty
`SNS Request failed: ` prefix. -/
theorem makeRequest_error_ne_empty (f : FetchOutcome) (e : String)
    (h : makeRequest f = .error e) : e ≠ "" := by
  cases f with
  | networkError m =>
    simp only [makeRequest, Except.error.injEq] at h
    subst h
    exact append_ne_empty_left _ _ (by decide)
  | response ok status body =>
    simp only [makeRequest] at h
    by_cases hok : ok = true
    · rw [if_neg (by simp [hok])] at h
      cases hp : parseXMLResponse body with
      | error pe =>
        rw [hp] at h
        simp only [Except.error.injEq] at h
        subst h
        exact append_ne_empty_left _ _ (by decide)
      | ok r =>
        rw [hp] at h
        exact absurd h (by simp)
    · rw [if_pos (by simp [Bool.eq_false_iff.mpr hok])] at h
      simp only [Except.error.injEq] at h
      subst h
      exact append_ne_empty_left _ _ (by decide)

/-- C9: for every options record, environment and world of external
outcomes, `verifyPhone` returns a structured result (it is a total
function — no exception escapes), and every failure result has
`success = false` together with a non-empty error string. -/
theorem c9_orchestrator_total (opts : VerifyOptions) (env : Env) (w : World) :
    (verifyPhone opts env w).1.success = true ∨
    ((verifyPhone opts env w).1.success = false ∧
      ∃ e, (verifyPhone opts env w).1.error = some e ∧ e ≠ "") := by
  simp only [verifyPhone]
  repeat' split
  all_goals
    first
      | exact Or.inl rfl
      | exact Or.inr ⟨rfl, _, rfl, by decide⟩
      | (rename_i e heq
         exact Or.inr ⟨rfl, e, rfl, makeRequest_error_ne_empty _ e heq⟩)

/-- C6: whenever VoIP blocking is requested and the classifier says
VoIP, the orchestrator returns the policy rejection
`{success := false, isVoip := true}` with its error string, and the
transport stage (client construction, signing, publish) is never
reached. -/
theorem c6_voip_block_short_circuits (opts : VerifyOptions) (env : Env) (w : World)
    (c rawPhone : String)
    (hcode : opts.code = some c) (hc1 : (c == "") = false) (hc2 : codeFormatOk c = true)
    (hphone : opts.phoneNumber = some rawPhone)
    (hvalid : isValidPhoneNumberM
        (if opts.useLibPhoneNumber then formatPhoneNumberLibPhoneNumber rawPhone w.parseRaw
         else formatPhoneNumber rawPhone)
        opts.useLibPhoneNumber w.parseForValidation = true)
    (hblock : opts.blockVoip = true) (hvoip : classifierVerdict opts w = true) :
    verifyPhone opts env w
      = ({ success := false,
           error := some "VoIP numbers are not allowed",
           details := some "This phone number appears to be a VoIP number, which is not supported for verification",
           isVoip := some true }, false) := by
  simp only [verifyPhone, hcode, hphone, hc1, hc2, hvalid, hblock, hvoip]
  rfl

/-- Options of the C6 scenario: phone `"5551234567"`, `blockVoip`
requested, external-lookup strategy (the default). -/
def c6Opts : VerifyOptions :=
  { phoneNumber := some "5551234567", code := some "1234", blockVoip := true }

def c6Env : Env := ⟨none, none, none⟩

/-- A world whose lookup reports a Bandwidth VoIP carrier (the classifier
returns `true`); the publish fetch would fail, but must never run. -/
def c6World : World :=
  { parseRaw := .error (), parseForValidation := .error (), parseFormatted := .error (),
    oracle := none,
    lookup := .success (some
      { carrier := some { name := some "Bandwidth CLEC LLC", type := some "voip" },
        portability := some { line_type := some "voip" } }),
    publishFetch := .networkError "unreachable" }

/-- C6, witness: the short-circuit theorem at the concrete scenario. -/
theorem c6_witness :
    verifyPhone c6Opts c6Env c6World
      = ({ success := false,
           error := some "VoIP numbers are not allowed",
           details := some "This phone number appears to be a VoIP number, which is not supported for verification",
           isVoip := some true }, false) :=
  c6_voip_block_short_circuits c6Opts c6Env c6World "1234" "5551234567"
    rfl (by decide) (by decide) rfl (by decide) rfl (by decide)

/-- JS falsy test for a string-or-undefined value. -/
def jsFalsyStr : Option String → Bool
  | none => true
  | some s => s == ""

/-- The credential guard of the HTTP layer
(`src/verify-phone-server.js` lines 176–189): refuse — before
`verifyPhone` is ever called — when either credential is missing from
the environment. -/
def serverCredentialCheck (env : Env) : Option DispatchResult :=
  if jsFalsyStr env.AWS_ACCESS_KEY_ID || jsFalsyStr env.AWS_SECRET_ACCESS_KEY then
    some { success := false,
           error := some "AWS credentials not configured",
           details := some "Please set AWS_ACCESS_KEY_ID and AWS_SECRET_ACCESS_KEY environment variables" }
  else none

def c10Opts : VerifyOptions :=
  { phoneNumber := some "+15551234567", code := some "1234" }

def c10Env : Env := ⟨none, none, none⟩

def c10World : World :=
  { parseRaw := .error (), parseForValidation := .error (), parseFormatted := .error (),
    oracle := none, lookup := .fetchError,
    publishFetch := .response true 200 "<MessageId>abc123</MessageId>" }

/-- C10, counterexample: with the signing credentials missing from both
the options and the environment, `verifyPhone` does not fail with a
missing-credential error — it reaches the transport stage (signs and
dispatches) and returns the publish result. -/
theorem c10_counterexample :
    (verifyPhone c10Opts c10Env c10World).2 = true ∧
    (verifyPhone c10Opts c10Env c10World).1.success = true ∧
    (verifyPhone c10Opts c10Env c10World).1.error = none :=
  ⟨rfl, rfl, rfl⟩

/-- C10 (amended): `verifyPhone` performs no credential check — its
entire behaviour, including whether the transport stage is reached, is
invariant under replacing or removing the credentials in the options and
the environment; the missing-credential rejection (`"AWS credentials not
configured"`) is produced by the HTTP server layer, which refuses before
invoking `verifyPhone`. -/
theorem c10_credential_check_in_server_layer :
    (∀ env : Env,
      (jsFalsyStr env.AWS_ACCESS_KEY_ID || jsFalsyStr env.AWS_SECRET_ACCESS_KEY) = true →
      serverCredentialCheck env
        = some { success := false,
                 error := some "AWS credentials not configured",
                 details := some "Please set AWS_ACCESS_KEY_ID and AWS_SECRET_ACCESS_KEY environment variables" }) ∧
    (∀ (opts : VerifyOptions) (env : Env) (w : World) (ak sk eak esk : Option String),
      verifyPhone opts env w
        = verifyPhone { opts with accessKeyId := ak, secretAccessKey := sk }
            { env with AWS_ACCESS_KEY_ID := eak, AWS_SECRET_ACCESS_KEY := esk } w) := by
  constructor
  · intro env h
    simp [serverCredentialCheck, h]
  · intro opts env w ak sk eak esk
    rfl

/-- C10, witness: the server guard fires on an environment with no
credentials, and credential-stripping leaves a concrete `verifyPhone`
run unchanged. -/
theorem c10_witness :
    ((jsFalsyStr (Env.AWS_ACCESS_KEY_ID ⟨none, none, some "us-east-1"⟩)
        || jsFalsyStr (Env.AWS_SECRET_ACCESS_KEY ⟨none, none, some "us-east-1"⟩)) = true ∧
      serverCredentialCheck ⟨none, none, some "us-east-1"⟩
        = some { success := false,
                 error := some "AWS credentials not configured",
                 details := some "Please set AWS_ACCESS_KEY_ID and AWS_SECRET_ACCESS_KEY environment variables" }) ∧
    verifyPhone c10Opts c10Env c10World
      = verifyPhone { c10Opts with accessKeyId := some "AKID", secretAccessKey := some "SECRET" }
          { c10Env with AWS_ACCESS_KEY_ID := some "AKID", AWS_SECRET_ACCESS_KEY := some "SECRET" }
          c10World :=
  ⟨⟨by decide, c10_credential_check_in_server_layer.1 ⟨none, none, some "us-east-1"⟩ (by decide)⟩,
   c10_credential_check_in_server_layer.2 c10Opts c10Env c10World
     (some "AKID") (some "SECRET") (some "AKID") (some "SECRET")⟩
